import Mathlib

/-!
Arduboy2Beep: square-wave tone channels `BeepPin1` and `BeepPin2`

A shallow embedding of `src/Arduboy2Beep.cpp`.  The file is compiled for one of
four build profiles, selected by the preprocessor:

* `AB_DEVKIT` defined: the stub implementation (no timer register is touched);
* otherwise `SLIMBOY` defined: ATmega328P, timers 1 and 2;
* otherwise `ARDUBOY4809` set: ATmega4809, both pins on timer A0;
* otherwise: the default ATmega32U4 build, timers 3 and 4.

The program state is the two static `duration` counters together with every
timer register the source assigns.  Registers are natural numbers; each
assignment truncates to the width of the register (8 or 16 bits).  Registers
only change when the code writes them: the free-running hardware counter is
not modelled.
-/

namespace Arduboy2Beep

/-! ## Build profiles and channels -/

/-- The four mutually exclusive preprocessor configurations of the source. -/
inductive Profile where
  | default
  | SLIMBOY
  | ARDUBOY4809
  | AB_DEVKIT
  deriving DecidableEq, Repr

/-- The two speaker pins, each driven by one class of the source. -/
inductive Channel where
  | pin1
  | pin2
  deriving DecidableEq, Repr

/-- A profile is hardware backed when it is not the `AB_DEVKIT` stub build. -/
def Profile.hardware : Profile → Bool
  | .AB_DEVKIT => false
  | _ => true

/-! ## Device-header constants

The register bit numbers and bit masks come from the device headers of the
toolchain, which are not part of the repository.  They are parameters of the
model. -/

/-- The device-header constants the source refers to, by name. -/
structure Consts where
  /-- ATmega328P, `TCCR1B` bit numbers. -/
  WGM12 : Nat
  CS11 : Nat
  /-- ATmega328P, `TCCR1A` toggle-on-compare bit number. -/
  COM1A0 : Nat
  /-- ATmega32U4, `TCCR3B` bit numbers. -/
  WGM32 : Nat
  CS31 : Nat
  /-- ATmega32U4, `TCCR3A` toggle-on-compare bit number. -/
  COM3A0 : Nat
  /-- ATmega328P, `TCCR2B` bit numbers. -/
  CS22 : Nat
  CS20 : Nat
  /-- ATmega328P, `TCCR2A` bit numbers. -/
  WGM21 : Nat
  COM2A0 : Nat
  /-- ATmega32U4, `TCCR4B` bit number. -/
  CS43 : Nat
  /-- ATmega32U4, `TCCR4A` toggle-on-compare bit number. -/
  COM4A0 : Nat
  /-- ATmega4809, port pin masks. -/
  PIN0_bm : Nat
  PIN1_bm : Nat
  /-- ATmega4809, `TCA0.SINGLE.CTRLB` frequency waveform generation mode. -/
  TCA_SINGLE_WGMODE_FRQ_gc : Nat
  /-- ATmega4809, `TCA0.SINGLE.CTRLB` compare channel 0 enable mask. -/
  TCA_SINGLE_CMP0EN_bm : Nat
  deriving Repr

/-- The constraints on the constants that the results below rely on: the four
toggle-on-compare bit numbers lie inside their 8-bit registers, the compare
enable mask has a bit inside the 8-bit `CTRLB`, and the frequency mode value
does not contain a compare enable bit. -/
def Consts.Valid (c : Consts) : Prop :=
  c.COM1A0 < 8 ∧ c.COM3A0 < 8 ∧ c.COM2A0 < 8 ∧ c.COM4A0 < 8 ∧
  c.TCA_SINGLE_CMP0EN_bm % 256 ≠ 0 ∧
  (c.TCA_SINGLE_WGMODE_FRQ_gc &&& c.TCA_SINGLE_CMP0EN_bm) % 256 = 0

instance (c : Consts) : Decidable c.Valid := by
  unfold Consts.Valid; infer_instance

/-- The values of the constants in the avr-libc device headers
(`iom328p.h`, `iom32u4.h`, `iom4809.h`). -/
def avrConsts : Consts where
  WGM12 := 3
  CS11 := 1
  COM1A0 := 6
  WGM32 := 3
  CS31 := 1
  COM3A0 := 6
  CS22 := 2
  CS20 := 0
  WGM21 := 1
  COM2A0 := 6
  CS43 := 3
  COM4A0 := 6
  PIN0_bm := 0x01
  PIN1_bm := 0x02
  TCA_SINGLE_WGMODE_FRQ_gc := 0x01
  TCA_SINGLE_CMP0EN_bm := 0x10

/-! ## Arduino core helpers and register writes -/

/-- Arduino `bit(b)`, that is `1UL << b`. -/
def bit (b : Nat) : Nat := 1 <<< b

/-- Arduino `lowByte(w)`, that is `(uint8_t)(w & 0xff)`. -/
def lowByte (w : Nat) : Nat := (w &&& 0xff) % 256

/-- Arduino `highByte(w)`, that is `(uint8_t)(w >> 8)`. -/
def highByte (w : Nat) : Nat := (w >>> 8) % 256

/-- The value an 8-bit register or `uint8_t` variable holds after `v` is
assigned to it. -/
def u8 (v : Nat) : Nat := v % 256

/-- The value a 16-bit register or `uint16_t` variable holds after `v` is
assigned to it. -/
def u16 (v : Nat) : Nat := v % 65536

/-- The 8-bit value of `r & ~m`, used for `r &= ~m`. -/
def clearMask8 (r m : Nat) : Nat := u8 r &&& (0xff ^^^ u8 m)

/-! ## Program state -/

/-- The two static counters and every register the source writes. -/
structure State where
  /-- Source `BeepPin1::duration`. -/
  duration1 : Nat
  /-- Source `BeepPin2::duration`. -/
  duration2 : Nat
  /-- Default profile, timer 3 (pin 1). -/
  TCCR3A : Nat
  TCCR3B : Nat
  OCR3A : Nat
  /-- Default profile, timer 4 (pin 2). -/
  TCCR4A : Nat
  TCCR4B : Nat
  TCCR4D : Nat
  TC4H : Nat
  OCR4A : Nat
  OCR4C : Nat
  /-- Profile `SLIMBOY`, timer 1 (pin 1). -/
  TCCR1A : Nat
  TCCR1B : Nat
  OCR1A : Nat
  /-- Profile `SLIMBOY`, timer 2 (pin 2). -/
  TCCR2A : Nat
  TCCR2B : Nat
  OCR2A : Nat
  /-- Profile `ARDUBOY4809`, port B direction register, set through `PORTB_DIRSET`. -/
  PORTB_DIR : Nat
  /-- Profile `ARDUBOY4809`, timer A0 (both pins). -/
  TCA0_SINGLE_CTRLB : Nat
  TCA0_SINGLE_CMP0BUF : Nat
  TCA0_SINGLE_CNT : Nat
  deriving DecidableEq, Repr

/-- The state with every counter and register zero. -/
def State.zero : State :=
  ⟨0, 0, 0, 0, 0, 0, 0, 0, 0, 0, 0, 0, 0, 0, 0, 0, 0, 0, 0, 0, 0⟩

/-! ## `BeepPin1` -/

/-- Source `BeepPin1::begin()`. -/
def BeepPin1.begin (c : Consts) (p : Profile) (s : State) : State :=
  match p with
  | .SLIMBOY =>
    { s with TCCR1A := u8 0, TCCR1B := u8 (bit c.WGM12 ||| bit c.CS11) }
  | .ARDUBOY4809 =>
    { s with PORTB_DIR := u8 (s.PORTB_DIR ||| c.PIN0_bm),
             TCA0_SINGLE_CTRLB := u8 c.TCA_SINGLE_WGMODE_FRQ_gc }
  | .default =>
    { s with TCCR3A := u8 0, TCCR3B := u8 (bit c.WGM32 ||| bit c.CS31) }
  | .AB_DEVKIT => s

/-- Source `BeepPin1::tone(uint16_t count, uint8_t dur)`. -/
def BeepPin1.tone (c : Consts) (p : Profile) (count dur : Nat) (s : State) : State :=
  let s := { s with duration1 := u8 dur }
  match p with
  | .SLIMBOY =>
    { s with TCCR1A := u8 (bit c.COM1A0), OCR1A := u16 count }
  | .ARDUBOY4809 =>
    { s with TCA0_SINGLE_CMP0BUF := u16 count,
             TCA0_SINGLE_CTRLB := u8 (s.TCA0_SINGLE_CTRLB ||| c.TCA_SINGLE_CMP0EN_bm) }
  | .default =>
    { s with TCCR3A := u8 (bit c.COM3A0), OCR3A := u16 count }
  | .AB_DEVKIT => s

/-- Source `BeepPin1::tone(uint16_t count)`, the one-argument overload. -/
def BeepPin1.tone1 (c : Consts) (p : Profile) (count : Nat) (s : State) : State :=
  BeepPin1.tone c p count 0 s

/-- Source `BeepPin1::timer()`.  On the hardware profiles the counter is decremented
only when it is nonzero, and the pin is disconnected when the decrement
reaches zero; the stub only decrements. -/
def BeepPin1.timer (c : Consts) (p : Profile) (s : State) : State :=
  if s.duration1 ≠ 0 then
    let s := { s with duration1 := u8 (s.duration1 + 255) }
    match p with
    | .AB_DEVKIT => s
    | .SLIMBOY => if s.duration1 = 0 then { s with TCCR1A := u8 0 } else s
    | .ARDUBOY4809 =>
      if s.duration1 = 0 then
        { s with TCA0_SINGLE_CTRLB := clearMask8 s.TCA0_SINGLE_CTRLB c.TCA_SINGLE_CMP0EN_bm,
                 TCA0_SINGLE_CNT := u16 0 }
      else s
    | .default => if s.duration1 = 0 then { s with TCCR3A := u8 0 } else s
  else s

/-- Source `BeepPin1::noTone()`. -/
def BeepPin1.noTone (c : Consts) (p : Profile) (s : State) : State :=
  let s := { s with duration1 := u8 0 }
  match p with
  | .SLIMBOY => { s with TCCR1A := u8 0 }
  | .ARDUBOY4809 =>
    { s with TCA0_SINGLE_CTRLB := clearMask8 s.TCA0_SINGLE_CTRLB c.TCA_SINGLE_CMP0EN_bm,
             TCA0_SINGLE_CNT := u16 0 }
  | .default => { s with TCCR3A := u8 0 }
  | .AB_DEVKIT => s

/-! ## `BeepPin2` -/

/-- Source `BeepPin2::begin()`. -/
def BeepPin2.begin (c : Consts) (p : Profile) (s : State) : State :=
  match p with
  | .SLIMBOY =>
    { s with TCCR2A := u8 0, TCCR2B := u8 (bit c.CS22 ||| bit c.CS20), OCR2A := u8 0 }
  | .ARDUBOY4809 =>
    { s with PORTB_DIR := u8 (s.PORTB_DIR ||| c.PIN1_bm),
             TCA0_SINGLE_CTRLB := u8 c.TCA_SINGLE_WGMODE_FRQ_gc }
  | .default =>
    { s with TCCR4A := u8 0, TCCR4B := u8 (bit c.CS43), TCCR4D := u8 0,
             TC4H := u8 0, OCR4A := u8 0 }
  | .AB_DEVKIT => s

/-- Source `BeepPin2::tone(uint16_t count, uint8_t dur)`. -/
def BeepPin2.tone (c : Consts) (p : Profile) (count dur : Nat) (s : State) : State :=
  let s := { s with duration2 := u8 dur }
  match p with
  | .SLIMBOY =>
    { s with TCCR2A := u8 (bit c.WGM21 ||| bit c.COM2A0), OCR2A := u8 (lowByte (u16 count)) }
  | .ARDUBOY4809 =>
    { s with TCA0_SINGLE_CMP0BUF := u16 count,
             TCA0_SINGLE_CTRLB := u8 (s.TCA0_SINGLE_CTRLB ||| c.TCA_SINGLE_CMP0EN_bm) }
  | .default =>
    { s with TCCR4A := u8 (bit c.COM4A0), TC4H := u8 (highByte (u16 count)),
             OCR4C := u8 (lowByte (u16 count)) }
  | .AB_DEVKIT => s

/-- Source `BeepPin2::tone(uint16_t count)`, the one-argument overload. -/
def BeepPin2.tone1 (c : Consts) (p : Profile) (count : Nat) (s : State) : State :=
  BeepPin2.tone c p count 0 s

/-- Source `BeepPin2::timer()`. -/
def BeepPin2.timer (c : Consts) (p : Profile) (s : State) : State :=
  if s.duration2 ≠ 0 then
    let s := { s with duration2 := u8 (s.duration2 + 255) }
    match p with
    | .AB_DEVKIT => s
    | .SLIMBOY => if s.duration2 = 0 then { s with TCCR2A := u8 0 } else s
    | .ARDUBOY4809 =>
      if s.duration2 = 0 then
        { s with TCA0_SINGLE_CTRLB := clearMask8 s.TCA0_SINGLE_CTRLB c.TCA_SINGLE_CMP0EN_bm,
                 TCA0_SINGLE_CNT := u16 0 }
      else s
    | .default => if s.duration2 = 0 then { s with TCCR4A := u8 0 } else s
  else s

/-- Source `BeepPin2::noTone()`. -/
def BeepPin2.noTone (c : Consts) (p : Profile) (s : State) : State :=
  let s := { s with duration2 := u8 0 }
  match p with
  | .SLIMBOY => { s with TCCR2A := u8 0 }
  | .ARDUBOY4809 =>
    { s with TCA0_SINGLE_CTRLB := clearMask8 s.TCA0_SINGLE_CTRLB c.TCA_SINGLE_CMP0EN_bm,
             TCA0_SINGLE_CNT := u16 0 }
  | .default => { s with TCCR4A := u8 0 }
  | .AB_DEVKIT => s

/-! ## Channel-indexed view of the two classes -/

/-- The `duration` counter of a channel. -/
def duration (ch : Channel) (s : State) : Nat :=
  match ch with
  | .pin1 => s.duration1
  | .pin2 => s.duration2

/-- Is the pin of the channel connected to its timer: the toggle-on-compare
bit of the channel's control register (the compare enable bit on
`ARDUBOY4809`) is set.  The stub build drives no pin. -/
def connected (c : Consts) (p : Profile) (ch : Channel) (s : State) : Bool :=
  match p, ch with
  | .default, .pin1 => s.TCCR3A &&& bit c.COM3A0 != 0
  | .default, .pin2 => s.TCCR4A &&& bit c.COM4A0 != 0
  | .SLIMBOY, .pin1 => s.TCCR1A &&& bit c.COM1A0 != 0
  | .SLIMBOY, .pin2 => s.TCCR2A &&& bit c.COM2A0 != 0
  | .ARDUBOY4809, _ => s.TCA0_SINGLE_CTRLB &&& c.TCA_SINGLE_CMP0EN_bm != 0
  | .AB_DEVKIT, _ => false

/-- Method `begin()` of the channel. -/
def begin (c : Consts) (p : Profile) (ch : Channel) (s : State) : State :=
  match ch with
  | .pin1 => BeepPin1.begin c p s
  | .pin2 => BeepPin2.begin c p s

/-- Method `tone(count, dur)` of the channel. -/
def tone (c : Consts) (p : Profile) (ch : Channel) (count dur : Nat) (s : State) : State :=
  match ch with
  | .pin1 => BeepPin1.tone c p count dur s
  | .pin2 => BeepPin2.tone c p count dur s

/-- Method `tone(count)` of the channel. -/
def tone1 (c : Consts) (p : Profile) (ch : Channel) (count : Nat) (s : State) : State :=
  match ch with
  | .pin1 => BeepPin1.tone1 c p count s
  | .pin2 => BeepPin2.tone1 c p count s

/-- Method `timer()` of the channel. -/
def timer (c : Consts) (p : Profile) (ch : Channel) (s : State) : State :=
  match ch with
  | .pin1 => BeepPin1.timer c p s
  | .pin2 => BeepPin2.timer c p s

/-- Method `noTone()` of the channel. -/
def noTone (c : Consts) (p : Profile) (ch : Channel) (s : State) : State :=
  match ch with
  | .pin1 => BeepPin1.noTone c p s
  | .pin2 => BeepPin2.noTone c p s

/-- The state after `n` successive `timer()` calls of the channel. -/
def timerN (c : Consts) (p : Profile) (ch : Channel) : Nat → State → State
  | 0, s => s
  | n + 1, s => timerN c p ch n (timer c p ch s)

/-! ## Call sequences -/

/-- One call of a method of one of the two classes. -/
inductive Op where
  | begin (ch : Channel)
  | tone1 (ch : Channel) (count : Nat)
  | tone (ch : Channel) (count dur : Nat)
  | timer (ch : Channel)
  | noTone (ch : Channel)
  deriving DecidableEq, Repr

/-- The channel whose method is called. -/
def Op.chan : Op → Channel
  | .begin ch => ch
  | .tone1 ch _ => ch
  | .tone ch _ _ => ch
  | .timer ch => ch
  | .noTone ch => ch

/-- The state after one call. -/
def step (c : Consts) (p : Profile) (op : Op) (s : State) : State :=
  match op with
  | .begin ch => begin c p ch s
  | .tone1 ch count => tone1 c p ch count s
  | .tone ch count dur => tone c p ch count dur s
  | .timer ch => timer c p ch s
  | .noTone ch => noTone c p ch s

/-- The state after a sequence of calls, made from left to right. -/
def run (c : Consts) (p : Profile) : List Op → State → State
  | [], s => s
  | op :: ops, s => run c p ops (step c p op s)

/-- A call the invariant of timed tones ranges over: `tone(f, d)` with a
nonzero 8-bit `d`, `timer()` or `noTone()`, made on channel `ch`. -/
def Op.timedOn (ch : Channel) : Op → Prop
  | .tone ch' _ d => ch' = ch ∧ 0 < d ∧ d ≤ 255
  | .timer ch' => ch' = ch
  | .noTone ch' => ch' = ch
  | .begin _ => False
  | .tone1 _ _ => False

instance (ch : Channel) (op : Op) : Decidable (op.timedOn ch) := by
  cases op <;> unfold Op.timedOn <;> infer_instance

/-! ## Registers of a channel -/

/-- The registers `tone` loads the count into, for each profile and channel.
The stub build has none. -/
def compareRegs (p : Profile) (ch : Channel) (s : State) : List Nat :=
  match p, ch with
  | .default, .pin1 => [s.OCR3A]
  | .default, .pin2 => [s.TC4H, s.OCR4C]
  | .SLIMBOY, .pin1 => [s.OCR1A]
  | .SLIMBOY, .pin2 => [s.OCR2A]
  | .ARDUBOY4809, _ => [s.TCA0_SINGLE_CMP0BUF]
  | .AB_DEVKIT, _ => []

/-- The values `tone(count, dur)` assigns to the registers of `compareRegs`. -/
def loadedCount (p : Profile) (ch : Channel) (count : Nat) : List Nat :=
  match p, ch with
  | .default, .pin1 => [u16 count]
  | .default, .pin2 => [u8 (highByte (u16 count)), u8 (lowByte (u16 count))]
  | .SLIMBOY, .pin1 => [u16 count]
  | .SLIMBOY, .pin2 => [u8 (lowByte (u16 count))]
  | .ARDUBOY4809, _ => [u16 count]
  | .AB_DEVKIT, _ => []

/-- Everything the methods of a channel read or write under a profile: the
counter, then the timer registers (control registers first, compare registers
last). -/
def channelState (p : Profile) (ch : Channel) (s : State) : List Nat :=
  match p, ch with
  | .default, .pin1 => [s.duration1, s.TCCR3A, s.TCCR3B, s.OCR3A]
  | .default, .pin2 => [s.duration2, s.TCCR4A, s.TCCR4B, s.TCCR4D, s.TC4H, s.OCR4A, s.OCR4C]
  | .SLIMBOY, .pin1 => [s.duration1, s.TCCR1A, s.TCCR1B, s.OCR1A]
  | .SLIMBOY, .pin2 => [s.duration2, s.TCCR2A, s.TCCR2B, s.OCR2A]
  | .ARDUBOY4809, .pin1 =>
    [s.duration1, s.TCA0_SINGLE_CTRLB, s.TCA0_SINGLE_CMP0BUF, s.TCA0_SINGLE_CNT]
  | .ARDUBOY4809, .pin2 =>
    [s.duration2, s.TCA0_SINGLE_CTRLB, s.TCA0_SINGLE_CMP0BUF, s.TCA0_SINGLE_CNT]
  | .AB_DEVKIT, .pin1 => [s.duration1]
  | .AB_DEVKIT, .pin2 => [s.duration2]

/-- The registers `noTone` assigns already hold the values it assigns: the
control register is 0 on the default and `SLIMBOY` profiles; on `ARDUBOY4809`
the timer count is 0 and `CTRLB` is an 8-bit value. -/
def idleRegs (p : Profile) (ch : Channel) (s : State) : Prop :=
  match p, ch with
  | .default, .pin1 => s.TCCR3A = 0
  | .default, .pin2 => s.TCCR4A = 0
  | .SLIMBOY, .pin1 => s.TCCR1A = 0
  | .SLIMBOY, .pin2 => s.TCCR2A = 0
  | .ARDUBOY4809, _ => s.TCA0_SINGLE_CTRLB < 256 ∧ s.TCA0_SINGLE_CNT = 0
  | .AB_DEVKIT, _ => True

instance (p : Profile) (ch : Channel) (s : State) : Decidable (idleRegs p ch s) := by
  cases p <;> cases ch <;> unfold idleRegs <;> infer_instance

/-- The state with the counter of a channel replaced. -/
def setDuration (ch : Channel) (v : Nat) (s : State) : State :=
  match ch with
  | .pin1 => { s with duration1 := v }
  | .pin2 => { s with duration2 := v }

/-- The frequency value held by the compare register of a channel, when the
profile has one.  On the default profile, pin 2, timer 4 is a 10-bit timer
(source comment: load the count (10 bits)): `TC4H` supplies the bits above the
low byte `OCR4C`, and the register keeps 10 bits of the pair. -/
def compareValue (p : Profile) (ch : Channel) (s : State) : Option Nat :=
  match p, ch with
  | .default, .pin1 => some s.OCR3A
  | .default, .pin2 => some ((s.TC4H * 256 + s.OCR4C) % 2 ^ 10)
  | .SLIMBOY, .pin1 => some s.OCR1A
  | .SLIMBOY, .pin2 => some s.OCR2A
  | .ARDUBOY4809, _ => some s.TCA0_SINGLE_CMP0BUF
  | .AB_DEVKIT, _ => none

/-- Is the call a `begin()` call. -/
def Op.isBegin : Op → Bool
  | .begin _ => true
  | _ => false

/-! ## Bit-level facts -/

theorem testBit_u8 (x i : Nat) : (u8 x).testBit i = (decide (i < 8) && x.testBit i) :=
  Nat.testBit_mod_two_pow x 8 i

theorem testBit_255 (i : Nat) : Nat.testBit 255 i = decide (i < 8) :=
  Nat.testBit_two_pow_sub_one 8 i

theorem u8_zero : u8 0 = 0 := rfl

theorem u8_of_le {d : Nat} (h : d ≤ 255) : u8 d = d := by
  unfold u8; omega

/-- Setting the bits of a mask that has a bit inside the register leaves a
value that meets the mask. -/
theorem or_mask_and_ne_zero (x m : Nat) (h : u8 m ≠ 0) : u8 (x ||| m) &&& m ≠ 0 := by
  obtain ⟨i, hi⟩ := Nat.ne_zero_implies_bit_true h
  rw [testBit_u8] at hi
  simp only [Bool.and_eq_true, decide_eq_true_eq] at hi
  intro h0
  have := congrArg (fun n => n.testBit i) h0
  simp [testBit_u8, hi.1, hi.2] at this

theorem u8_bit_ne_zero (n : Nat) (h : n < 8) : u8 (bit n) ≠ 0 := by
  unfold bit u8
  interval_cases n <;> decide

theorem u8_bit_and_ne_zero (n : Nat) (h : n < 8) : u8 (bit n) &&& bit n ≠ 0 := by
  have := or_mask_and_ne_zero 0 (bit n) (u8_bit_ne_zero n h)
  simpa using this

theorem u8_or_bit_and_ne_zero (x n : Nat) (h : n < 8) : u8 (x ||| bit n) &&& bit n ≠ 0 :=
  or_mask_and_ne_zero x (bit n) (u8_bit_ne_zero n h)

/-- Clearing the bits of a mask leaves a value that does not meet the mask. -/
theorem clearMask8_and (r m : Nat) : clearMask8 r m &&& m = 0 := by
  apply Nat.eq_of_testBit_eq
  intro i
  simp only [clearMask8, Nat.testBit_and, Nat.testBit_xor, testBit_u8, testBit_255,
    Nat.zero_testBit]
  by_cases h8 : i < 8 <;> cases hm : m.testBit i <;> simp [h8]

theorem clearMask8_idem (r m : Nat) : clearMask8 (clearMask8 r m) m = clearMask8 r m := by
  apply Nat.eq_of_testBit_eq
  intro i
  simp only [clearMask8, Nat.testBit_and, Nat.testBit_xor, testBit_u8, testBit_255]
  by_cases h8 : i < 8 <;> cases hm : m.testBit i <;> simp [h8]

/-- Clearing a mask that the value does not meet changes nothing in an 8-bit
value. -/
theorem clearMask8_of_and_eq_zero (r m : Nat) (hr : r < 256) (h : r &&& m = 0) :
    clearMask8 r m = r := by
  apply Nat.eq_of_testBit_eq
  intro i
  have hi := congrArg (fun n => n.testBit i) h
  simp only [Nat.testBit_and, Nat.zero_testBit] at hi
  have hu : u8 r = r := by unfold u8; omega
  have hr8 : ¬ i < 8 → r.testBit i = false := by
    intro h8
    rw [← hu, testBit_u8]; simp [h8]
  simp only [clearMask8, Nat.testBit_and, Nat.testBit_xor, testBit_u8, testBit_255]
  by_cases h8 : i < 8
  · cases hm : m.testBit i <;> cases hrr : r.testBit i <;> simp_all
  · simp [h8, hr8 h8]

theorem u8_and_eq_zero (a m : Nat) (h : (a &&& m) % 256 = 0) : u8 a &&& m = 0 := by
  apply Nat.eq_of_testBit_eq
  intro i
  have hi : (u8 (a &&& m)).testBit i = Nat.testBit 0 i := congrArg (fun n => n.testBit i) h
  rw [testBit_u8] at hi
  simp only [Nat.testBit_and, Nat.zero_testBit] at hi
  simp only [Nat.testBit_and, testBit_u8, Nat.zero_testBit]
  rw [← hi, Bool.and_assoc]

/-! ## Effect of a single call on the counter and on the connection -/

theorem duration_tone (c : Consts) (p : Profile) (ch : Channel) (f d : Nat) (s : State) :
    duration ch (tone c p ch f d s) = u8 d := by
  cases p <;> cases ch <;> rfl

theorem connected_tone (c : Consts) (hc : c.Valid) (p : Profile) (hp : p.hardware = true)
    (ch : Channel) (f d : Nat) (s : State) :
    connected c p ch (tone c p ch f d s) = true := by
  obtain ⟨h1, h3, h2, h4, hm, _⟩ := hc
  cases p <;> cases ch <;>
    simp only [connected, tone, BeepPin1.tone, BeepPin2.tone, bne_iff_ne]
  · exact u8_bit_and_ne_zero _ h3
  · exact u8_bit_and_ne_zero _ h4
  · exact u8_bit_and_ne_zero _ h1
  · exact u8_or_bit_and_ne_zero _ _ h2
  · exact or_mask_and_ne_zero _ _ hm
  · exact or_mask_and_ne_zero _ _ hm
  · exact absurd hp (by decide)
  · exact absurd hp (by decide)

theorem timer_of_duration_zero (c : Consts) (p : Profile) (ch : Channel) (s : State)
    (h : duration ch s = 0) : timer c p ch s = s := by
  cases ch <;> simp only [duration] at h <;>
    simp [timer, BeepPin1.timer, BeepPin2.timer, h]

theorem duration_timer (c : Consts) (p : Profile) (ch : Channel) (s : State)
    (h : duration ch s < 256) : duration ch (timer c p ch s) = duration ch s - 1 := by
  cases ch <;> simp only [duration] at h ⊢ <;>
    simp only [timer, BeepPin1.timer, BeepPin2.timer, u8] <;>
    cases p <;> simp only [] <;> split_ifs <;> first | omega | (simp only []; omega)

theorem connected_timer_of_two_le (c : Consts) (p : Profile) (ch : Channel) (s : State)
    (h2 : 2 ≤ duration ch s) (h : duration ch s < 256) :
    connected c p ch (timer c p ch s) = connected c p ch s := by
  cases ch <;> simp only [duration] at h h2 <;>
    simp only [timer, BeepPin1.timer, BeepPin2.timer, u8] <;>
    cases p <;> simp only [] <;> split_ifs <;> first | rfl | omega

theorem connected_timer_of_one (c : Consts) (p : Profile) (ch : Channel) (s : State)
    (h1 : duration ch s = 1) : connected c p ch (timer c p ch s) = false := by
  cases ch <;> simp only [duration] at h1 <;>
    cases p <;>
    simp [timer, BeepPin1.timer, BeepPin2.timer, u8, h1, connected, clearMask8_and]

/-! ## Repeated `timer()` calls -/

theorem timerN_of_duration_zero (c : Consts) (p : Profile) (ch : Channel) (k : Nat) (s : State)
    (h : duration ch s = 0) : timerN c p ch k s = s := by
  induction k with
  | zero => rfl
  | succ k ih => rw [timerN, timer_of_duration_zero c p ch s h, ih]

theorem timerN_duration (c : Consts) (p : Profile) (ch : Channel) (k : Nat) :
    ∀ s : State, duration ch s < 256 → duration ch (timerN c p ch k s) = duration ch s - k := by
  induction k with
  | zero => intro s _; rfl
  | succ k ih =>
    intro s h
    have h1 := duration_timer c p ch s h
    rw [timerN, ih (timer c p ch s) (by omega), h1]
    omega

theorem timerN_connected_of_lt (c : Consts) (p : Profile) (ch : Channel) (k : Nat) :
    ∀ s : State, k < duration ch s → duration ch s < 256 →
      connected c p ch (timerN c p ch k s) = connected c p ch s := by
  induction k with
  | zero => intro s _ _; rfl
  | succ k ih =>
    intro s hk h
    have h1 := duration_timer c p ch s h
    rw [timerN, ih (timer c p ch s) (by omega) (by omega)]
    exact connected_timer_of_two_le c p ch s (by omega) h

theorem timerN_connected_of_ge (c : Consts) (p : Profile) (ch : Channel) (k : Nat) :
    ∀ s : State, 0 < duration ch s → duration ch s ≤ k → duration ch s < 256 →
      connected c p ch (timerN c p ch k s) = false := by
  induction k with
  | zero => intro s h0 hk _; omega
  | succ k ih =>
    intro s h0 hk h
    have h1 := duration_timer c p ch s h
    rw [timerN]
    by_cases hone : duration ch s = 1
    · rw [timerN_of_duration_zero c p ch k _ (by omega)]
      exact connected_timer_of_one c p ch s hone
    · exact ih (timer c p ch s) (by omega) (by omega) (by omega)

/-! ## `begin()` and `noTone()` -/

theorem duration_begin (c : Consts) (p : Profile) (ch : Channel) (s : State) :
    duration ch (begin c p ch s) = duration ch s := by
  cases p <;> cases ch <;> rfl

theorem connected_begin (c : Consts) (hc : c.Valid) (p : Profile) (ch : Channel) (s : State) :
    connected c p ch (begin c p ch s) = false := by
  obtain ⟨_, _, _, _, _, hg⟩ := hc
  cases p <;> cases ch <;>
    simp [connected, begin, BeepPin1.begin, BeepPin2.begin, u8_zero, u8_and_eq_zero _ _ hg]

theorem duration_noTone (c : Consts) (p : Profile) (ch : Channel) (s : State) :
    duration ch (noTone c p ch s) = 0 := by
  cases p <;> cases ch <;> rfl

theorem connected_noTone (c : Consts) (p : Profile) (ch : Channel) (s : State) :
    connected c p ch (noTone c p ch s) = false := by
  cases p <;> cases ch <;>
    simp [connected, noTone, BeepPin1.noTone, BeepPin2.noTone, u8_zero, clearMask8_and]

/-! ## The invariant of timed tones -/

theorem timer_preserves_silent (c : Consts) (p : Profile) (ch : Channel) (s : State)
    (hlt : duration ch s < 256)
    (hinv : duration ch s = 0 → connected c p ch s = false) :
    duration ch (timer c p ch s) < 256 ∧
    (duration ch (timer c p ch s) = 0 → connected c p ch (timer c p ch s) = false) := by
  have hd := duration_timer c p ch s hlt
  refine ⟨by omega, fun hz => ?_⟩
  by_cases h0 : duration ch s = 0
  · rw [timer_of_duration_zero c p ch s h0]; exact hinv h0
  · exact connected_timer_of_one c p ch s (by omega)

theorem step_preserves_silent (c : Consts) (p : Profile) (ch : Channel) (op : Op) (s : State)
    (hop : op.timedOn ch) (hlt : duration ch s < 256)
    (hinv : duration ch s = 0 → connected c p ch s = false) :
    duration ch (step c p op s) < 256 ∧
    (duration ch (step c p op s) = 0 → connected c p ch (step c p op s) = false) := by
  cases op with
  | begin ch' => exact absurd hop (by simp [Op.timedOn])
  | tone1 ch' f => exact absurd hop (by simp [Op.timedOn])
  | tone ch' f d =>
    obtain ⟨rfl, hd0, hd1⟩ := hop
    have hd : duration ch' (tone c p ch' f d s) = d := by rw [duration_tone, u8_of_le hd1]
    simp only [step]
    exact ⟨by omega, fun hz => by omega⟩
  | timer ch' =>
    have e : ch' = ch := hop
    subst e
    exact timer_preserves_silent c p ch' s hlt hinv
  | noTone ch' =>
    have e : ch' = ch := hop
    subst e
    simp only [step]
    exact ⟨by rw [duration_noTone]; omega, fun _ => connected_noTone c p ch' s⟩

theorem run_preserves_silent (c : Consts) (p : Profile) (ch : Channel) (ops : List Op) :
    ∀ s : State, (∀ op ∈ ops, op.timedOn ch) → duration ch s < 256 →
      (duration ch s = 0 → connected c p ch s = false) →
      duration ch (run c p ops s) < 256 ∧
      (duration ch (run c p ops s) = 0 → connected c p ch (run c p ops s) = false) := by
  induction ops with
  | nil => intro s _ hlt hinv; exact ⟨hlt, hinv⟩
  | cons op ops ih =>
    intro s hops hlt hinv
    have hs := step_preserves_silent c p ch op s (hops op (List.mem_cons_self _ _)) hlt hinv
    exact ih (step c p op s) (fun o ho => hops o (List.mem_cons_of_mem _ ho)) hs.1 hs.2

theorem run_append (c : Consts) (p : Profile) (xs ys : List Op) :
    ∀ s : State, run c p (xs ++ ys) s = run c p ys (run c p xs s) := by
  induction xs with
  | nil => intro s; rfl
  | cons x xs ih => intro s; exact ih (step c p x s)

theorem run_replicate_timer (c : Consts) (p : Profile) (ch : Channel) (k : Nat) :
    ∀ s : State, run c p (List.replicate k (Op.timer ch)) s = timerN c p ch k s := by
  induction k with
  | zero => intro s; rfl
  | succ k ih => intro s; exact ih (timer c p ch s)

/-! ## Superseding a running tone -/

theorem setDuration_self (ch : Channel) (s : State) : setDuration ch (duration ch s) s = s := by
  cases ch <;> rfl

theorem setDuration_setDuration (ch : Channel) (v w : Nat) (s : State) :
    setDuration ch v (setDuration ch w s) = setDuration ch v s := by
  cases ch <;> rfl

theorem duration_setDuration (ch : Channel) (v : Nat) (s : State) :
    duration ch (setDuration ch v s) = v := by
  cases ch <;> rfl

theorem timer_of_two_le (c : Consts) (p : Profile) (ch : Channel) (s : State)
    (h2 : 2 ≤ duration ch s) (h : duration ch s < 256) :
    timer c p ch s = setDuration ch (duration ch s - 1) s := by
  cases ch <;> simp only [duration] at h h2 <;>
    simp only [timer, BeepPin1.timer, BeepPin2.timer, u8, setDuration, duration] <;>
    cases p <;> simp only [] <;> split_ifs <;>
    first
      | omega
      | (congr 1; omega)

theorem timerN_of_lt (c : Consts) (p : Profile) (ch : Channel) (k : Nat) :
    ∀ s : State, k < duration ch s → duration ch s < 256 →
      timerN c p ch k s = setDuration ch (duration ch s - k) s := by
  induction k with
  | zero => intro s _ _; exact (setDuration_self ch s).symm
  | succ k ih =>
    intro s hk h
    have e := timer_of_two_le c p ch s (by omega) h
    rw [timerN, e, ih _ (by rw [duration_setDuration]; omega)
      (by rw [duration_setDuration]; omega), duration_setDuration, setDuration_setDuration]
    congr 1
    omega

theorem u8_or_absorb (x m : Nat) : u8 (u8 (x ||| m) ||| m) = u8 (x ||| m) := by
  apply Nat.eq_of_testBit_eq
  intro i
  simp only [testBit_u8, Nat.testBit_or]
  by_cases h8 : i < 8 <;> cases x.testBit i <;> cases m.testBit i <;> simp [h8]

theorem tone_setDuration (c : Consts) (p : Profile) (ch : Channel) (f d v : Nat) (s : State) :
    tone c p ch f d (setDuration ch v s) = tone c p ch f d s := by
  cases p <;> cases ch <;> rfl

theorem tone_tone (c : Consts) (p : Profile) (ch : Channel) (f1 d1 f2 d2 : Nat) (s : State) :
    tone c p ch f2 d2 (tone c p ch f1 d1 s) = tone c p ch f2 d2 s := by
  cases p <;> cases ch <;>
    simp [tone, BeepPin1.tone, BeepPin2.tone, u8_or_absorb]

theorem compareRegs_tone (c : Consts) (p : Profile) (ch : Channel) (f d : Nat) (s : State) :
    compareRegs p ch (tone c p ch f d s) = loadedCount p ch f := by
  cases p <;> cases ch <;> rfl

/-! ## The counters under two profiles -/

theorem step_counters_agree (c : Consts) (p q : Profile) (op : Op) (s t : State)
    (h1 : s.duration1 = t.duration1) (h2 : s.duration2 = t.duration2) :
    (step c p op s).duration1 = (step c q op t).duration1 ∧
    (step c p op s).duration2 = (step c q op t).duration2 := by
  cases op with
  | begin ch => cases ch <;> cases p <;> cases q <;> exact ⟨h1, h2⟩
  | tone1 ch f => cases ch <;> cases p <;> cases q <;> first | exact ⟨rfl, h2⟩ | exact ⟨h1, rfl⟩
  | tone ch f d => cases ch <;> cases p <;> cases q <;> first | exact ⟨rfl, h2⟩ | exact ⟨h1, rfl⟩
  | noTone ch => cases ch <;> cases p <;> cases q <;> first | exact ⟨rfl, h2⟩ | exact ⟨h1, rfl⟩
  | timer ch =>
    cases ch <;>
      simp only [step, timer, BeepPin1.timer, BeepPin2.timer, ← h1, ← h2] <;>
      cases p <;> cases q <;> simp only [] <;> split_ifs <;> simp_all

theorem run_counters_agree (c : Consts) (p q : Profile) (ops : List Op) :
    ∀ s t : State, s.duration1 = t.duration1 → s.duration2 = t.duration2 →
      (run c p ops s).duration1 = (run c q ops t).duration1 ∧
      (run c p ops s).duration2 = (run c q ops t).duration2 := by
  induction ops with
  | nil => intro s t h1 h2; exact ⟨h1, h2⟩
  | cons op ops ih =>
    intro s t h1 h2
    have h := step_counters_agree c p q op s t h1 h2
    exact ih _ _ h.1 h.2

/-! ## Bytes of a count -/

theorem lowByte_eq_mod (w : Nat) : lowByte w = w % 256 := by
  have h := Nat.and_pow_two_sub_one_eq_mod w 8
  have e : lowByte w = (w &&& (2 ^ 8 - 1)) % 256 := rfl
  rw [e, h]
  omega

theorem highByte_eq_div (w : Nat) : highByte w = w / 256 % 256 := by
  have h := Nat.shiftRight_eq_div_pow w 8
  have e : highByte w = (w >>> 8) % 256 := rfl
  rw [e, h]

theorem split_bytes_mod (f : Nat) :
    (u8 (highByte (u16 f)) * 256 + u8 (lowByte (u16 f))) % 2 ^ 10 = f % 2 ^ 10 := by
  rw [lowByte_eq_mod, highByte_eq_div]
  unfold u8 u16
  omega

theorem u8_lowByte_mod (f : Nat) : u8 (lowByte (u16 f)) = f % 2 ^ 8 := by
  rw [lowByte_eq_mod]
  unfold u8 u16
  omega

/-! ## Bits of `CTRLB` outside the compare enable mask -/

theorem testBit_u8_or_of_not_mask (r m i : Nat) (hr : r < 256) (hm : m.testBit i = false) :
    (u8 (r ||| m)).testBit i = r.testBit i := by
  have hu : u8 r = r := by unfold u8; omega
  rw [testBit_u8, Nat.testBit_or, hm, Bool.or_false, ← testBit_u8, hu]

theorem testBit_clearMask8_of_not_mask (r m i : Nat) (hr : r < 256)
    (hm : m.testBit i = false) : (clearMask8 r m).testBit i = r.testBit i := by
  have hu : u8 r = r := by unfold u8; omega
  have hr8 : ¬ i < 8 → r.testBit i = false := by
    intro h8
    rw [← hu, testBit_u8]; simp [h8]
  simp only [clearMask8, Nat.testBit_and, Nat.testBit_xor, testBit_u8, testBit_255, hm]
  by_cases h8 : i < 8
  · simp [h8]
  · simp [h8, hr8 h8]

theorem u8_lt (v : Nat) : u8 v < 256 := by
  unfold u8; omega

theorem clearMask8_lt (r m : Nat) : clearMask8 r m < 256 := by
  have h : clearMask8 r m ≤ u8 r := Nat.and_le_left
  have := u8_lt r
  omega

/-- On `ARDUBOY4809` every call other than `begin()` keeps `CTRLB` an 8-bit
value and leaves its bits outside the compare enable mask as they were. -/
theorem step_ctrlb_outside_mask (c : Consts) (op : Op) (s : State) (i : Nat)
    (hop : op.isBegin = false) (hlt : s.TCA0_SINGLE_CTRLB < 256)
    (hi : c.TCA_SINGLE_CMP0EN_bm.testBit i = false) :
    (step c .ARDUBOY4809 op s).TCA0_SINGLE_CTRLB < 256 ∧
    (step c .ARDUBOY4809 op s).TCA0_SINGLE_CTRLB.testBit i = s.TCA0_SINGLE_CTRLB.testBit i := by
  cases op with
  | begin ch => exact absurd hop (by simp [Op.isBegin])
  | tone1 ch f =>
    cases ch <;> exact ⟨u8_lt _, testBit_u8_or_of_not_mask _ _ i hlt hi⟩
  | tone ch f d =>
    cases ch <;> exact ⟨u8_lt _, testBit_u8_or_of_not_mask _ _ i hlt hi⟩
  | noTone ch =>
    cases ch <;> exact ⟨clearMask8_lt _ _, testBit_clearMask8_of_not_mask _ _ i hlt hi⟩
  | timer ch =>
    cases ch <;>
      simp only [step, timer, BeepPin1.timer, BeepPin2.timer] <;>
      split_ifs <;>
      first
        | exact ⟨hlt, rfl⟩
        | exact ⟨clearMask8_lt _ _, testBit_clearMask8_of_not_mask _ _ i hlt hi⟩

theorem step_begin_ctrlb (c : Consts) (op : Op) (s : State) (hop : op.isBegin = true) :
    (step c .ARDUBOY4809 op s).TCA0_SINGLE_CTRLB = u8 c.TCA_SINGLE_WGMODE_FRQ_gc := by
  cases op with
  | begin ch => cases ch <;> rfl
  | tone1 ch f => exact absurd hop (by simp [Op.isBegin])
  | tone ch f d => exact absurd hop (by simp [Op.isBegin])
  | noTone ch => exact absurd hop (by simp [Op.isBegin])
  | timer ch => exact absurd hop (by simp [Op.isBegin])

theorem run_ctrlb_outside_mask (c : Consts) (i : Nat)
    (hi : c.TCA_SINGLE_CMP0EN_bm.testBit i = false) (ops : List Op) :
    ∀ s : State, s.TCA0_SINGLE_CTRLB < 256 →
      s.TCA0_SINGLE_CTRLB.testBit i = (u8 c.TCA_SINGLE_WGMODE_FRQ_gc).testBit i →
      (run c .ARDUBOY4809 ops s).TCA0_SINGLE_CTRLB < 256 ∧
      (run c .ARDUBOY4809 ops s).TCA0_SINGLE_CTRLB.testBit i
        = (u8 c.TCA_SINGLE_WGMODE_FRQ_gc).testBit i := by
  induction ops with
  | nil => intro s hlt hs; exact ⟨hlt, hs⟩
  | cons op ops ih =>
    intro s hlt hs
    cases hb : op.isBegin with
    | true =>
      have e := step_begin_ctrlb c op s hb
      exact ih (step c .ARDUBOY4809 op s) (by rw [e]; exact u8_lt _) (by rw [e])
    | false =>
      have h := step_ctrlb_outside_mask c op s i hb hlt hi
      exact ih (step c .ARDUBOY4809 op s) h.1 (by rw [h.2, hs])

/-! ## Timed and sustained tones -/

/-- Claim C1: on every hardware-backed profile and for both channels, from any
state, `tone(f, d)` with `1 ≤ d ≤ 255` followed by `k < d` calls of `timer()`
leaves the channel connected with `duration == d - k`, and followed by exactly
`d` calls leaves it disconnected with `duration == 0`. -/
theorem timed_tone_countdown (c : Consts) (hc : c.Valid) (p : Profile)
    (hp : p.hardware = true) (ch : Channel) (f d : Nat) (hd1 : 1 ≤ d) (hd2 : d ≤ 255)
    (s : State) :
    (∀ k, k < d →
      connected c p ch (timerN c p ch k (tone c p ch f d s)) = true ∧
      duration ch (timerN c p ch k (tone c p ch f d s)) = d - k) ∧
    connected c p ch (timerN c p ch d (tone c p ch f d s)) = false ∧
    duration ch (timerN c p ch d (tone c p ch f d s)) = 0 := by
  have hdur : duration ch (tone c p ch f d s) = d := by
    rw [duration_tone, u8_of_le hd2]
  have hcon := connected_tone c hc p hp ch f d s
  refine ⟨fun k hk => ⟨?_, ?_⟩, ?_, ?_⟩
  · rw [timerN_connected_of_lt c p ch k _ (by omega) (by omega), hcon]
  · rw [timerN_duration c p ch k _ (by omega), hdur]
  · exact timerN_connected_of_ge c p ch d _ (by omega) (by omega) (by omega)
  · rw [timerN_duration c p ch d _ (by omega), hdur]; omega

/-- The scenario of claim C1 on the default profile, pin 1: after `tone(1000, 3)`
two `timer()` calls leave the channel connected with `duration == 1`, and the
third leaves it disconnected with `duration == 0`. -/
theorem timed_tone_countdown_witness :
    avrConsts.Valid ∧ Profile.default.hardware = true ∧ 1 ≤ 3 ∧ 3 ≤ 255 ∧
    (connected avrConsts .default .pin1
        (timerN avrConsts .default .pin1 2 (tone avrConsts .default .pin1 1000 3 State.zero))
        = true ∧
      duration .pin1
        (timerN avrConsts .default .pin1 2 (tone avrConsts .default .pin1 1000 3 State.zero))
        = 3 - 2) ∧
    connected avrConsts .default .pin1
        (timerN avrConsts .default .pin1 3 (tone avrConsts .default .pin1 1000 3 State.zero))
        = false ∧
    duration .pin1
        (timerN avrConsts .default .pin1 3 (tone avrConsts .default .pin1 1000 3 State.zero))
        = 0 :=
  have h := timed_tone_countdown avrConsts (by decide) .default rfl .pin1 1000 3
    (by decide) (by decide) State.zero
  ⟨by decide, rfl, by decide, by decide, h.1 2 (by decide), h.2.1, h.2.2⟩

/-- Claim C2: on every hardware-backed profile and for both channels, from any
state, a sustain tone started by `tone(f, 0)` or by `tone(f)` is still
connected, with `duration == 0`, after any number `n` of `timer()` calls. -/
theorem sustain_tone_never_silenced (c : Consts) (hc : c.Valid) (p : Profile)
    (hp : p.hardware = true) (ch : Channel) (f n : Nat) (s : State) :
    (connected c p ch (timerN c p ch n (tone c p ch f 0 s)) = true ∧
      duration ch (timerN c p ch n (tone c p ch f 0 s)) = 0) ∧
    (connected c p ch (timerN c p ch n (tone1 c p ch f s)) = true ∧
      duration ch (timerN c p ch n (tone1 c p ch f s)) = 0) := by
  have h1 : tone1 c p ch f s = tone c p ch f 0 s := by cases ch <;> rfl
  have hdur : duration ch (tone c p ch f 0 s) = 0 := by rw [duration_tone]; rfl
  have hfix := timerN_of_duration_zero c p ch n _ hdur
  rw [h1, hfix]
  exact ⟨⟨connected_tone c hc p hp ch f 0 s, hdur⟩, connected_tone c hc p hp ch f 0 s, hdur⟩

/-- The scenario of claim C2 on the default profile, pin 1: `tone(500)` followed
by 100 `timer()` calls. -/
theorem sustain_tone_never_silenced_witness :
    avrConsts.Valid ∧ Profile.default.hardware = true ∧
    connected avrConsts .default .pin1
        (timerN avrConsts .default .pin1 100 (tone1 avrConsts .default .pin1 500 State.zero))
        = true ∧
    duration .pin1
        (timerN avrConsts .default .pin1 100 (tone1 avrConsts .default .pin1 500 State.zero))
        = 0 :=
  ⟨by decide, rfl,
    (sustain_tone_never_silenced avrConsts (by decide) .default rfl .pin1 500 100 State.zero).2⟩

/-- Claim C3: on every profile and for both channels, `timer()` applied to a
state whose `duration` is 0 returns the same state: the counter stays 0 and no
register is written. -/
theorem timer_noop_at_zero (c : Consts) (p : Profile) (ch : Channel) (s : State)
    (h : duration ch s = 0) : timer c p ch s = s := by
  cases ch <;> simp only [duration] at h <;>
    simp [timer, BeepPin1.timer, BeepPin2.timer, h]

/-- Claim C3 at a connected sustain tone on `ARDUBOY4809`: the `timer()` call
changes nothing. -/
theorem timer_noop_at_zero_witness :
    duration .pin2 (tone avrConsts .ARDUBOY4809 .pin2 500 0 State.zero) = 0 ∧
    timer avrConsts .ARDUBOY4809 .pin2 (tone avrConsts .ARDUBOY4809 .pin2 500 0 State.zero)
      = tone avrConsts .ARDUBOY4809 .pin2 500 0 State.zero :=
  ⟨rfl, timer_noop_at_zero avrConsts .ARDUBOY4809 .pin2 _ rfl⟩

/-- Claim C4: for both channels, in every state reached from `begin()` applied
to a state with `duration == 0` by any sequence of `tone(f, d)` with
`1 ≤ d ≤ 255`, `timer()` and `noTone()` calls on that channel, `duration == 0`
implies that the channel is disconnected. -/
theorem silent_when_counter_zero (c : Consts) (hc : c.Valid) (p : Profile) (ch : Channel)
    (s : State) (h0 : duration ch s = 0) (ops : List Op)
    (hops : ∀ op ∈ ops, op.timedOn ch) :
    duration ch (run c p ops (begin c p ch s)) = 0 →
      connected c p ch (run c p ops (begin c p ch s)) = false := by
  have hb : duration ch (begin c p ch s) = 0 := by rw [duration_begin]; exact h0
  exact (run_preserves_silent c p ch ops (begin c p ch s) hops (by omega)
    (fun _ => connected_begin c hc p ch s)).2

/-- Claim C4 on `ARDUBOY4809`, pin 1: after `begin()`, `tone(1000, 2)` and two
`timer()` calls the counter is 0 and the channel is disconnected. -/
theorem silent_when_counter_zero_witness :
    avrConsts.Valid ∧ duration .pin1 State.zero = 0 ∧
    (∀ op ∈ [Op.tone .pin1 1000 2, Op.timer .pin1, Op.timer .pin1], op.timedOn .pin1) ∧
    duration .pin1 (run avrConsts .ARDUBOY4809
      [Op.tone .pin1 1000 2, Op.timer .pin1, Op.timer .pin1]
      (begin avrConsts .ARDUBOY4809 .pin1 State.zero)) = 0 ∧
    connected avrConsts .ARDUBOY4809 .pin1 (run avrConsts .ARDUBOY4809
      [Op.tone .pin1 1000 2, Op.timer .pin1, Op.timer .pin1]
      (begin avrConsts .ARDUBOY4809 .pin1 State.zero)) = false :=
  ⟨by decide, rfl, by decide, by decide,
    silent_when_counter_zero avrConsts (by decide) .ARDUBOY4809 .pin1 State.zero rfl
      [Op.tone .pin1 1000 2, Op.timer .pin1, Op.timer .pin1] (by decide) (by decide)⟩

/-! ## A second `tone` call -/

/-- Claim C5 as stated fails on the stub profile: after `tone(1000, 3)`, one
`timer()` call and `tone(500, 2)` on `AB_DEVKIT` the counter is 2, but no
compare register has been loaded and the channel is not connected. -/
theorem tone_supersedes_stub_counterexample :
    duration .pin1 (tone avrConsts .AB_DEVKIT .pin1 500 2
      (timerN avrConsts .AB_DEVKIT .pin1 1 (tone avrConsts .AB_DEVKIT .pin1 1000 3 State.zero)))
      = 2 ∧
    compareRegs .AB_DEVKIT .pin1 (tone avrConsts .AB_DEVKIT .pin1 500 2
      (timerN avrConsts .AB_DEVKIT .pin1 1 (tone avrConsts .AB_DEVKIT .pin1 1000 3 State.zero)))
      = [] ∧
    connected avrConsts .AB_DEVKIT .pin1 (tone avrConsts .AB_DEVKIT .pin1 500 2
      (timerN avrConsts .AB_DEVKIT .pin1 1 (tone avrConsts .AB_DEVKIT .pin1 1000 3 State.zero)))
      = false := by
  decide

/-- Claim C5, amended: on every profile and for both channels, after
`tone(f1, d1)` with `1 ≤ d1 ≤ 255`, `k < d1` calls of `timer()` and then
`tone(f2, d2)` with `d2 ≤ 255`, the state is the one `tone(f2, d2)` gives when
called directly (nothing of `f1`, `d1` is left) and `duration == d2`.  On the
hardware-backed profiles moreover the compare registers hold the values loaded
from `f2`, the channel is connected, and for `d2 > 0` it stays connected during
fewer than `d2` further `timer()` calls and is disconnected, with
`duration == 0`, after exactly `d2`. -/
theorem tone_supersedes (c : Consts) (hc : c.Valid) (p : Profile) (ch : Channel)
    (f1 f2 d1 k d2 : Nat) (hd1 : 1 ≤ d1) (hd1' : d1 ≤ 255) (hk : k < d1) (hd2 : d2 ≤ 255)
    (s : State) :
    tone c p ch f2 d2 (timerN c p ch k (tone c p ch f1 d1 s)) = tone c p ch f2 d2 s ∧
    duration ch (tone c p ch f2 d2 (timerN c p ch k (tone c p ch f1 d1 s))) = d2 ∧
    (p.hardware = true →
      compareRegs p ch (tone c p ch f2 d2 (timerN c p ch k (tone c p ch f1 d1 s)))
        = loadedCount p ch f2 ∧
      connected c p ch (tone c p ch f2 d2 (timerN c p ch k (tone c p ch f1 d1 s))) = true ∧
      (0 < d2 →
        (∀ j, j < d2 → connected c p ch (timerN c p ch j
          (tone c p ch f2 d2 (timerN c p ch k (tone c p ch f1 d1 s)))) = true) ∧
        connected c p ch (timerN c p ch d2
          (tone c p ch f2 d2 (timerN c p ch k (tone c p ch f1 d1 s)))) = false ∧
        duration ch (timerN c p ch d2
          (tone c p ch f2 d2 (timerN c p ch k (tone c p ch f1 d1 s)))) = 0)) := by
  have hdur1 : duration ch (tone c p ch f1 d1 s) = d1 := by rw [duration_tone, u8_of_le hd1']
  have heq : tone c p ch f2 d2 (timerN c p ch k (tone c p ch f1 d1 s)) = tone c p ch f2 d2 s := by
    rw [timerN_of_lt c p ch k _ (by omega) (by omega), tone_setDuration, tone_tone]
  have hdur2 : duration ch (tone c p ch f2 d2 s) = d2 := by rw [duration_tone, u8_of_le hd2]
  rw [heq]
  refine ⟨rfl, hdur2, fun hp => ⟨compareRegs_tone c p ch f2 d2 s, ?_, fun hpos => ⟨?_, ?_, ?_⟩⟩⟩
  · exact connected_tone c hc p hp ch f2 d2 s
  · intro j hj
    rw [timerN_connected_of_lt c p ch j _ (by omega) (by omega)]
    exact connected_tone c hc p hp ch f2 d2 s
  · exact timerN_connected_of_ge c p ch d2 _ (by omega) (by omega) (by omega)
  · rw [timerN_duration c p ch d2 _ (by omega), hdur2]; omega

/-- Claim C5, amended, on `SLIMBOY`, pin 2: `tone(1000, 3)`, one `timer()` call,
then `tone(500, 2)`. -/
theorem tone_supersedes_witness :
    avrConsts.Valid ∧ 1 ≤ 3 ∧ 3 ≤ 255 ∧ 1 < 3 ∧ 2 ≤ 255 ∧
    tone avrConsts .SLIMBOY .pin2 500 2
      (timerN avrConsts .SLIMBOY .pin2 1 (tone avrConsts .SLIMBOY .pin2 1000 3 State.zero))
      = tone avrConsts .SLIMBOY .pin2 500 2 State.zero ∧
    connected avrConsts .SLIMBOY .pin2 (timerN avrConsts .SLIMBOY .pin2 2
      (tone avrConsts .SLIMBOY .pin2 500 2
        (timerN avrConsts .SLIMBOY .pin2 1 (tone avrConsts .SLIMBOY .pin2 1000 3 State.zero))))
      = false :=
  have h := tone_supersedes avrConsts (by decide) .SLIMBOY .pin2 1000 500 3 1 2
    (by decide) (by decide) (by decide) (by decide) State.zero
  ⟨by decide, by decide, by decide, by decide, by decide, h.1,
    ((h.2.2 rfl).2.2 (by decide)).2.1⟩

/-- Claim C6 as stated fails: on the default profile, pin 1, after
`tone(1000, 2)` exactly two `timer()` calls have been made, with a further
`tone(500, 5)` between them, and the channel is still connected, with
`duration == 4`. -/
theorem interleaved_tone_counterexample :
    List.count (Op.timer .pin1)
      [Op.timer .pin1, Op.tone .pin1 500 5, Op.timer .pin1] = 2 ∧
    connected avrConsts .default .pin1 (run avrConsts .default
      [Op.timer .pin1, Op.tone .pin1 500 5, Op.timer .pin1]
      (tone avrConsts .default .pin1 1000 2 State.zero)) = true ∧
    duration .pin1 (run avrConsts .default
      [Op.timer .pin1, Op.tone .pin1 500 5, Op.timer .pin1]
      (tone avrConsts .default .pin1 1000 2 State.zero)) = 4 := by
  decide

/-- Claim C6, amended: on every hardware-backed profile and for both channels,
the most recent `tone` call decides.  Whatever calls `pre` came before, after
`tone(f, d)` with `1 ≤ d ≤ 255` followed by `k` calls of `timer()` and no
further `tone` call, the channel is connected exactly when `k < d`; so it is
disconnected after exactly `d` calls. -/
theorem last_tone_decides (c : Consts) (hc : c.Valid) (p : Profile) (hp : p.hardware = true)
    (ch : Channel) (pre : List Op) (f d k : Nat) (hd : 1 ≤ d) (hd' : d ≤ 255) (s : State) :
    connected c p ch
      (run c p (pre ++ Op.tone ch f d :: List.replicate k (Op.timer ch)) s) = decide (k < d) ∧
    connected c p ch
      (run c p (pre ++ Op.tone ch f d :: List.replicate d (Op.timer ch)) s) = false := by
  have hrun : ∀ n, run c p (pre ++ Op.tone ch f d :: List.replicate n (Op.timer ch)) s
      = timerN c p ch n (tone c p ch f d (run c p pre s)) := by
    intro n
    rw [run_append, run, run_replicate_timer]
    rfl
  have hdur : duration ch (tone c p ch f d (run c p pre s)) = d := by
    rw [duration_tone, u8_of_le hd']
  rw [hrun, hrun]
  refine ⟨?_, timerN_connected_of_ge c p ch d _ (by omega) (by omega) (by omega)⟩
  by_cases hk : k < d
  · rw [timerN_connected_of_lt c p ch k _ (by omega) (by omega),
      connected_tone c hc p hp ch f d _]
    simp [hk]
  · rw [timerN_connected_of_ge c p ch k _ (by omega) (by omega) (by omega)]
    simp [hk]

/-- Claim C6, amended, on the default profile, pin 1: after `tone(1000, 2)`,
`timer()`, `tone(500, 5)` the channel is still connected after four further
`timer()` calls and disconnected after the fifth. -/
theorem last_tone_decides_witness :
    avrConsts.Valid ∧ Profile.default.hardware = true ∧ 1 ≤ 5 ∧ 5 ≤ 255 ∧
    connected avrConsts .default .pin1 (run avrConsts .default
      ([Op.tone .pin1 1000 2, Op.timer .pin1] ++
        Op.tone .pin1 500 5 :: List.replicate 4 (Op.timer .pin1)) State.zero)
      = decide (4 < 5) ∧
    connected avrConsts .default .pin1 (run avrConsts .default
      ([Op.tone .pin1 1000 2, Op.timer .pin1] ++
        Op.tone .pin1 500 5 :: List.replicate 5 (Op.timer .pin1)) State.zero)
      = false :=
  ⟨by decide, rfl, by decide, by decide,
    last_tone_decides avrConsts (by decide) .default rfl .pin1
      [Op.tone .pin1 1000 2, Op.timer .pin1] 500 5 4 (by decide) (by decide) State.zero⟩

/-! ## Stopping a tone -/

/-- Claim C7: on every profile and for both channels, `noTone()` applied to any
state gives `duration == 0` and a disconnected channel, and any number of later
`timer()` calls leaves that state unchanged. -/
theorem noTone_silences (c : Consts) (p : Profile) (ch : Channel) (s : State) :
    duration ch (noTone c p ch s) = 0 ∧
    connected c p ch (noTone c p ch s) = false ∧
    ∀ n, timerN c p ch n (noTone c p ch s) = noTone c p ch s :=
  ⟨duration_noTone c p ch s, connected_noTone c p ch s,
    fun n => timerN_of_duration_zero c p ch n _ (duration_noTone c p ch s)⟩

/-- Claim C8 as stated fails: on `ARDUBOY4809` the state with every field zero
except `TCA0.SINGLE.CNT == 5` is silent (`duration == 0`, compare output
disabled), yet `noTone()` changes it, because it resets the timer count. -/
theorem noTone_changes_silent_state :
    duration .pin1 { State.zero with TCA0_SINGLE_CNT := 5 } = 0 ∧
    connected avrConsts .ARDUBOY4809 .pin1 { State.zero with TCA0_SINGLE_CNT := 5 } = false ∧
    noTone avrConsts .ARDUBOY4809 .pin1 { State.zero with TCA0_SINGLE_CNT := 5 }
      ≠ { State.zero with TCA0_SINGLE_CNT := 5 } := by
  decide

/-- Claim C8, amended: on every profile and for both channels,
`noTone(noTone(s)) == noTone(s)` for every state `s`, and `noTone(t) == t` for
every silent state `t` (`duration == 0`, disconnected) whose registers already
hold what `noTone` assigns (`idleRegs`). -/
theorem noTone_idempotent (c : Consts) (p : Profile) (ch : Channel) (s t : State)
    (hd : duration ch t = 0) (hcon : connected c p ch t = false) (hidle : idleRegs p ch t) :
    noTone c p ch (noTone c p ch s) = noTone c p ch s ∧ noTone c p ch t = t := by
  constructor
  · cases p <;> cases ch <;>
      simp [noTone, BeepPin1.noTone, BeepPin2.noTone, u8_zero, clearMask8_idem]
  · cases p <;> cases ch <;>
      simp only [duration, connected, idleRegs, bne_eq_false_iff_eq] at hd hcon hidle <;>
      simp only [noTone, BeepPin1.noTone, BeepPin2.noTone, u8_zero] <;>
      cases t <;> simp only [] at hd hcon hidle
    · subst hd hidle; rfl
    · subst hd hidle; rfl
    · subst hd hidle; rfl
    · subst hd hidle; rfl
    · obtain ⟨hlt, hcnt⟩ := hidle
      subst hd hcnt
      simp only [clearMask8_of_and_eq_zero _ _ hlt hcon]
      rfl
    · obtain ⟨hlt, hcnt⟩ := hidle
      subst hd hcnt
      simp only [clearMask8_of_and_eq_zero _ _ hlt hcon]
      rfl
    · subst hd; rfl
    · subst hd; rfl

/-- Claim C8, amended, on `ARDUBOY4809`, pin 1: `noTone()` applied twice to a
playing tone, and applied to the state left by `begin()`. -/
theorem noTone_idempotent_witness :
    duration .pin1 (begin avrConsts .ARDUBOY4809 .pin1 State.zero) = 0 ∧
    connected avrConsts .ARDUBOY4809 .pin1 (begin avrConsts .ARDUBOY4809 .pin1 State.zero)
      = false ∧
    idleRegs .ARDUBOY4809 .pin1 (begin avrConsts .ARDUBOY4809 .pin1 State.zero) ∧
    noTone avrConsts .ARDUBOY4809 .pin1 (noTone avrConsts .ARDUBOY4809 .pin1
        (tone avrConsts .ARDUBOY4809 .pin1 1000 3 State.zero))
      = noTone avrConsts .ARDUBOY4809 .pin1 (tone avrConsts .ARDUBOY4809 .pin1 1000 3 State.zero) ∧
    noTone avrConsts .ARDUBOY4809 .pin1 (begin avrConsts .ARDUBOY4809 .pin1 State.zero)
      = begin avrConsts .ARDUBOY4809 .pin1 State.zero :=
  ⟨by decide, by decide, by decide,
    noTone_idempotent avrConsts .ARDUBOY4809 .pin1
      (tone avrConsts .ARDUBOY4809 .pin1 1000 3 State.zero)
      (begin avrConsts .ARDUBOY4809 .pin1 State.zero) (by decide) (by decide) (by decide)⟩

/-! ## The two channels side by side -/

/-- Claim C9 as stated fails on `ARDUBOY4809`, where both pins use timer A0:
after `BeepPin1::tone(1000, 3)` pin 1 is connected with compare value 1000;
`BeepPin2::noTone()` disconnects it and `BeepPin2::tone(500, 0)` replaces its
compare value. -/
theorem shared_timer_counterexample :
    connected avrConsts .ARDUBOY4809 .pin1
      (tone avrConsts .ARDUBOY4809 .pin1 1000 3 State.zero) = true ∧
    connected avrConsts .ARDUBOY4809 .pin1
      (noTone avrConsts .ARDUBOY4809 .pin2
        (tone avrConsts .ARDUBOY4809 .pin1 1000 3 State.zero)) = false ∧
    compareRegs .ARDUBOY4809 .pin1
      (tone avrConsts .ARDUBOY4809 .pin1 1000 3 State.zero) = [1000] ∧
    compareRegs .ARDUBOY4809 .pin1
      (tone avrConsts .ARDUBOY4809 .pin2 500 0
        (tone avrConsts .ARDUBOY4809 .pin1 1000 3 State.zero)) = [500] := by
  decide

/-- Claim C9, amended: on every profile a call on one channel leaves the
`duration` counter of the other channel unchanged; on every profile other than
`ARDUBOY4809` it leaves the whole state of the other channel unchanged: its
counter and all its timer registers, hence its connection state and its
compare value. -/
theorem other_channel_untouched (c : Consts) (p : Profile) (ch : Channel) (op : Op)
    (s : State) (hop : op.chan ≠ ch) :
    duration ch (step c p op s) = duration ch s ∧
    (p ≠ .ARDUBOY4809 →
      channelState p ch (step c p op s) = channelState p ch s ∧
      connected c p ch (step c p op s) = connected c p ch s ∧
      compareRegs p ch (step c p op s) = compareRegs p ch s) := by
  cases op with
  | begin ch' =>
    cases ch' <;> cases ch <;> simp only [Op.chan, ne_eq, not_true_eq_false] at hop <;>
      cases p <;> exact ⟨rfl, fun h => by first | exact absurd rfl h | exact ⟨rfl, rfl, rfl⟩⟩
  | tone1 ch' f =>
    cases ch' <;> cases ch <;> simp only [Op.chan, ne_eq, not_true_eq_false] at hop <;>
      cases p <;> exact ⟨rfl, fun h => by first | exact absurd rfl h | exact ⟨rfl, rfl, rfl⟩⟩
  | tone ch' f d =>
    cases ch' <;> cases ch <;> simp only [Op.chan, ne_eq, not_true_eq_false] at hop <;>
      cases p <;> exact ⟨rfl, fun h => by first | exact absurd rfl h | exact ⟨rfl, rfl, rfl⟩⟩
  | noTone ch' =>
    cases ch' <;> cases ch <;> simp only [Op.chan, ne_eq, not_true_eq_false] at hop <;>
      cases p <;> exact ⟨rfl, fun h => by first | exact absurd rfl h | exact ⟨rfl, rfl, rfl⟩⟩
  | timer ch' =>
    cases ch' <;> cases ch <;> simp only [Op.chan, ne_eq, not_true_eq_false] at hop <;>
      simp only [step, timer, BeepPin1.timer, BeepPin2.timer] <;>
      cases p <;> simp only [] <;> split_ifs <;>
      exact ⟨rfl, fun h => by first | exact absurd rfl h | exact ⟨rfl, rfl, rfl⟩⟩

/-- Claim C9, amended, on the default profile: `BeepPin2::tone(500, 2)` leaves
the state of pin 1, which is playing `tone(1000, 3)`, unchanged. -/
theorem other_channel_untouched_witness :
    (Op.tone .pin2 500 2).chan ≠ Channel.pin1 ∧
    channelState .default .pin1 (step avrConsts .default (Op.tone .pin2 500 2)
        (tone avrConsts .default .pin1 1000 3 State.zero))
      = channelState .default .pin1 (tone avrConsts .default .pin1 1000 3 State.zero) :=
  ⟨by decide,
    ((other_channel_untouched avrConsts .default .pin1 (Op.tone .pin2 500 2)
      (tone avrConsts .default .pin1 1000 3 State.zero) (by decide)).2 (by decide)).1⟩

/-! ## The stub profile -/

/-- Claim C10: for every sequence of calls (on either channel) applied from
states whose counters are 0, the `duration` counter of each channel after each
call is the same under `AB_DEVKIT` as under any other profile `p`; and after
`tone(f, d)` with `d ≤ 255` and `k` calls of `timer()` it is `d - k` when
`k ≤ d` and 0 otherwise, under both. -/
theorem stub_counter_agrees (c : Consts) (p : Profile) (ch : Channel) (ops : List Op)
    (s t : State) (hs1 : s.duration1 = 0) (hs2 : s.duration2 = 0)
    (ht1 : t.duration1 = 0) (ht2 : t.duration2 = 0) (f d k : Nat) (hd : d ≤ 255) :
    (∀ n, duration ch (run c .AB_DEVKIT (ops.take n) t)
        = duration ch (run c p (ops.take n) s)) ∧
    duration ch (timerN c p ch k (tone c p ch f d s)) = (if k ≤ d then d - k else 0) ∧
    duration ch (timerN c .AB_DEVKIT ch k (tone c .AB_DEVKIT ch f d t))
      = (if k ≤ d then d - k else 0) := by
  have key : ∀ (q : Profile) (u : State),
      duration ch (timerN c q ch k (tone c q ch f d u)) = (if k ≤ d then d - k else 0) := by
    intro q u
    have hdur : duration ch (tone c q ch f d u) = d := by rw [duration_tone, u8_of_le hd]
    rw [timerN_duration c q ch k _ (by omega), hdur]
    split_ifs <;> omega
  refine ⟨fun n => ?_, key p s, key .AB_DEVKIT t⟩
  have h := run_counters_agree c .AB_DEVKIT p (ops.take n) t s
    (by rw [hs1, ht1]) (by rw [hs2, ht2])
  cases ch
  · exact h.1
  · exact h.2

/-- Claim C10 on the sequence `tone(1000, 2)`, `timer()`, `timer()`, `timer()`
of pin 1, stub against `ARDUBOY4809`, and on `tone(1000, 3)` followed by five
`timer()` calls. -/
theorem stub_counter_agrees_witness :
    State.zero.duration1 = 0 ∧ State.zero.duration2 = 0 ∧ 3 ≤ 255 ∧
    (∀ n, duration .pin1 (run avrConsts .AB_DEVKIT
        ([Op.tone .pin1 1000 2, Op.timer .pin1, Op.timer .pin1, Op.timer .pin1].take n)
        State.zero)
      = duration .pin1 (run avrConsts .ARDUBOY4809
        ([Op.tone .pin1 1000 2, Op.timer .pin1, Op.timer .pin1, Op.timer .pin1].take n)
        State.zero)) ∧
    duration .pin1 (timerN avrConsts .ARDUBOY4809 .pin1 5
        (tone avrConsts .ARDUBOY4809 .pin1 1000 3 State.zero))
      = (if 5 ≤ 3 then 3 - 5 else 0) ∧
    duration .pin1 (timerN avrConsts .AB_DEVKIT .pin1 5
        (tone avrConsts .AB_DEVKIT .pin1 1000 3 State.zero))
      = (if 5 ≤ 3 then 3 - 5 else 0) :=
  ⟨rfl, rfl, by decide,
    stub_counter_agrees avrConsts .ARDUBOY4809 .pin1
      [Op.tone .pin1 1000 2, Op.timer .pin1, Op.timer .pin1, Op.timer .pin1]
      State.zero State.zero rfl rfl rfl rfl 1000 3 5 (by decide)⟩

/-! ## The count loaded by `tone` -/

/-- Claim C11 as stated fails: with count 2000, `SLIMBOY` pin 2 loads 208, which
is neither `2000 mod 2^16` nor `2000 mod 2^10`, and the default profile's pin 2
loads 976, so two variants, not one, differ from the 16-bit value. -/
theorem compare_width_counterexample :
    compareValue .SLIMBOY .pin2 (tone avrConsts .SLIMBOY .pin2 2000 0 State.zero) = some 208 ∧
    208 ≠ 2000 % 2 ^ 16 ∧ 208 ≠ 2000 % 2 ^ 10 ∧
    compareValue .default .pin2 (tone avrConsts .default .pin2 2000 0 State.zero) = some 976 ∧
    976 ≠ 2000 % 2 ^ 16 := by
  decide

/-- Claim C11, amended: after `tone(count, dur)` the compare register holds
`count` truncated to the register width, which is 16 bits on pin 1 of the
default and `SLIMBOY` profiles and on both pins of `ARDUBOY4809`, 10 bits on
pin 2 of the default profile, and 8 bits on pin 2 of `SLIMBOY`; the stub
profile loads nothing. -/
theorem compare_value_loaded (c : Consts) (count dur : Nat) (s : State) :
    compareValue .default .pin1 (tone c .default .pin1 count dur s) = some (count % 2 ^ 16) ∧
    compareValue .default .pin2 (tone c .default .pin2 count dur s) = some (count % 2 ^ 10) ∧
    compareValue .SLIMBOY .pin1 (tone c .SLIMBOY .pin1 count dur s) = some (count % 2 ^ 16) ∧
    compareValue .SLIMBOY .pin2 (tone c .SLIMBOY .pin2 count dur s) = some (count % 2 ^ 8) ∧
    compareValue .ARDUBOY4809 .pin1 (tone c .ARDUBOY4809 .pin1 count dur s)
      = some (count % 2 ^ 16) ∧
    compareValue .ARDUBOY4809 .pin2 (tone c .ARDUBOY4809 .pin2 count dur s)
      = some (count % 2 ^ 16) ∧
    compareValue .AB_DEVKIT .pin1 (tone c .AB_DEVKIT .pin1 count dur s) = none ∧
    compareValue .AB_DEVKIT .pin2 (tone c .AB_DEVKIT .pin2 count dur s) = none := by
  refine ⟨rfl, ?_, rfl, ?_, rfl, rfl, rfl, rfl⟩
  · exact congrArg some (split_bytes_mod count)
  · exact congrArg some (u8_lowByte_mod count)

/-- Claim C12: on every profile and for both channels, `tone(f)` gives exactly
the state `tone(f, 0)` gives: `duration == 0`, the compare registers loaded
from `f`, and, on the hardware-backed profiles, the channel connected. -/
theorem tone1_eq_tone_zero (c : Consts) (p : Profile) (ch : Channel) (f : Nat) (s : State) :
    tone1 c p ch f s = tone c p ch f 0 s ∧
    duration ch (tone1 c p ch f s) = 0 ∧
    compareRegs p ch (tone1 c p ch f s) = loadedCount p ch f ∧
    (c.Valid → p.hardware = true → connected c p ch (tone1 c p ch f s) = true) := by
  have h : tone1 c p ch f s = tone c p ch f 0 s := by cases ch <;> rfl
  rw [h]
  refine ⟨rfl, ?_, compareRegs_tone c p ch f 0 s, fun hc hp => connected_tone c hc p hp ch f 0 s⟩
  rw [duration_tone]
  rfl

/-- Claim C12 on `SLIMBOY`, pin 2: `tone(500)` against `tone(500, 0)`, from a
state in which a timed tone is playing. -/
theorem tone1_eq_tone_zero_witness :
    avrConsts.Valid ∧ Profile.SLIMBOY.hardware = true ∧
    tone1 avrConsts .SLIMBOY .pin2 500 (tone avrConsts .SLIMBOY .pin2 1000 3 State.zero)
      = tone avrConsts .SLIMBOY .pin2 500 0 (tone avrConsts .SLIMBOY .pin2 1000 3 State.zero) ∧
    connected avrConsts .SLIMBOY .pin2
      (tone1 avrConsts .SLIMBOY .pin2 500 (tone avrConsts .SLIMBOY .pin2 1000 3 State.zero))
      = true :=
  have h := tone1_eq_tone_zero avrConsts .SLIMBOY .pin2 500
    (tone avrConsts .SLIMBOY .pin2 1000 3 State.zero)
  ⟨by decide, rfl, h.1, h.2.2.2 (by decide) rfl⟩

/-! ## Initialisation -/

/-- Claim C13: on every hardware-backed profile and for both channels,
`begin()` applied to any state leaves the channel disconnected and the counter
as it was; so applied to a state with `duration == 0` it gives a silent
channel, `duration == 0` and disconnected. -/
theorem begin_disconnects (c : Consts) (hc : c.Valid) (p : Profile) (hp : p.hardware = true)
    (ch : Channel) (s : State) :
    connected c p ch (begin c p ch s) = false ∧
    duration ch (begin c p ch s) = duration ch s ∧
    (duration ch s = 0 →
      duration ch (begin c p ch s) = 0 ∧ connected c p ch (begin c p ch s) = false) := by
  have hcon : connected c p ch (begin c p ch s) = false := by
    obtain ⟨_, _, _, _, _, hg⟩ := hc
    cases p <;> cases ch <;>
      simp [connected, begin, BeepPin1.begin, BeepPin2.begin, u8_zero, u8_and_eq_zero _ _ hg]
  have hdur : duration ch (begin c p ch s) = duration ch s := by
    cases p <;> cases ch <;> rfl
  exact ⟨hcon, hdur, fun h0 => ⟨by rw [hdur, h0], hcon⟩⟩

/-- Claim C13 on `ARDUBOY4809`, pin 2: `begin()` applied to a state in which a
sustain tone is connected disconnects it; the counter is 0 before and after. -/
theorem begin_disconnects_witness :
    avrConsts.Valid ∧ Profile.ARDUBOY4809.hardware = true ∧
    connected avrConsts .ARDUBOY4809 .pin2
      (tone avrConsts .ARDUBOY4809 .pin2 500 0 State.zero) = true ∧
    duration .pin2 (tone avrConsts .ARDUBOY4809 .pin2 500 0 State.zero) = 0 ∧
    duration .pin2 (begin avrConsts .ARDUBOY4809 .pin2
      (tone avrConsts .ARDUBOY4809 .pin2 500 0 State.zero)) = 0 ∧
    connected avrConsts .ARDUBOY4809 .pin2 (begin avrConsts .ARDUBOY4809 .pin2
      (tone avrConsts .ARDUBOY4809 .pin2 500 0 State.zero)) = false :=
  ⟨by decide, rfl, by decide, rfl,
    (begin_disconnects avrConsts (by decide) .ARDUBOY4809 rfl .pin2
      (tone avrConsts .ARDUBOY4809 .pin2 500 0 State.zero)).2.2 rfl⟩

/-! ## The shared timer of `ARDUBOY4809` -/

/-- Claim C14: on `ARDUBOY4809`, after `BeepPin1::tone(c1, d1)` followed by
`BeepPin2::tone(c2, d2)`, with 16-bit `c2` and 8-bit `d1`, `d2`, the shared
compare buffer `TCA0.SINGLE.CMP0BUF` holds `c2`, `BeepPin1::duration` is still
`d1`, `BeepPin2::duration` is `d2`, and the state does not depend on `c1`. -/
theorem shared_compare_overwritten (c : Consts) (c1 c2 d1 d2 : Nat) (s : State)
    (hc2 : c2 < 65536) (hd1 : d1 ≤ 255) (hd2 : d2 ≤ 255) :
    (BeepPin2.tone c .ARDUBOY4809 c2 d2
      (BeepPin1.tone c .ARDUBOY4809 c1 d1 s)).TCA0_SINGLE_CMP0BUF = c2 ∧
    (BeepPin2.tone c .ARDUBOY4809 c2 d2 (BeepPin1.tone c .ARDUBOY4809 c1 d1 s)).duration1 = d1 ∧
    (BeepPin2.tone c .ARDUBOY4809 c2 d2 (BeepPin1.tone c .ARDUBOY4809 c1 d1 s)).duration2 = d2 ∧
    ∀ c1' : Nat, BeepPin2.tone c .ARDUBOY4809 c2 d2 (BeepPin1.tone c .ARDUBOY4809 c1' d1 s)
      = BeepPin2.tone c .ARDUBOY4809 c2 d2 (BeepPin1.tone c .ARDUBOY4809 c1 d1 s) := by
  refine ⟨?_, ?_, ?_, fun c1' => rfl⟩
  · show u16 c2 = c2
    unfold u16; omega
  · exact u8_of_le hd1
  · exact u8_of_le hd2

/-- Claim C14 at `BeepPin1::tone(1000, 3)` followed by `BeepPin2::tone(500, 2)`. -/
theorem shared_compare_overwritten_witness :
    500 < 65536 ∧ 3 ≤ 255 ∧ 2 ≤ 255 ∧
    (BeepPin1.tone avrConsts .ARDUBOY4809 1000 3 State.zero).TCA0_SINGLE_CMP0BUF = 1000 ∧
    (BeepPin2.tone avrConsts .ARDUBOY4809 500 2
      (BeepPin1.tone avrConsts .ARDUBOY4809 1000 3 State.zero)).TCA0_SINGLE_CMP0BUF = 500 ∧
    (BeepPin2.tone avrConsts .ARDUBOY4809 500 2
      (BeepPin1.tone avrConsts .ARDUBOY4809 1000 3 State.zero)).duration1 = 3 :=
  have h := shared_compare_overwritten avrConsts 1000 500 3 2 State.zero
    (by decide) (by decide) (by decide)
  ⟨by decide, by decide, by decide, by decide, h.1, h.2.1⟩

/-- Claim C15: on `ARDUBOY4809`, in every state reached from `begin()` of
either channel by any sequence of calls on either channel, the bits of
`TCA0.SINGLE.CTRLB` under the waveform generation mode mask `gm` equal
`TCA_SINGLE_WGMODE_FRQ_gc`, for every mask `gm` that contains the 8-bit mode
value and is disjoint from `TCA_SINGLE_CMP0EN_bm`; and every call other than
`begin()` leaves each bit of an 8-bit `CTRLB` outside `TCA_SINGLE_CMP0EN_bm`
unchanged. -/
theorem wgmode_preserved (c : Consts) (gm : Nat) (ch0 : Channel) (s : State) (ops : List Op)
    (hgm : gm &&& c.TCA_SINGLE_CMP0EN_bm = 0)
    (hfrq : c.TCA_SINGLE_WGMODE_FRQ_gc &&& gm = c.TCA_SINGLE_WGMODE_FRQ_gc)
    (hlt : c.TCA_SINGLE_WGMODE_FRQ_gc < 256)
    (op : Op) (t : State) (i : Nat) (hop : op.isBegin = false)
    (ht : t.TCA0_SINGLE_CTRLB < 256) (hi : c.TCA_SINGLE_CMP0EN_bm.testBit i = false) :
    (run c .ARDUBOY4809 ops (begin c .ARDUBOY4809 ch0 s)).TCA0_SINGLE_CTRLB &&& gm
      = c.TCA_SINGLE_WGMODE_FRQ_gc ∧
    (step c .ARDUBOY4809 op t).TCA0_SINGLE_CTRLB.testBit i = t.TCA0_SINGLE_CTRLB.testBit i := by
  refine ⟨?_, (step_ctrlb_outside_mask c op t i hop ht hi).2⟩
  have hu : u8 c.TCA_SINGLE_WGMODE_FRQ_gc = c.TCA_SINGLE_WGMODE_FRQ_gc := by
    unfold u8; omega
  have hb : (begin c .ARDUBOY4809 ch0 s).TCA0_SINGLE_CTRLB = u8 c.TCA_SINGLE_WGMODE_FRQ_gc := by
    cases ch0 <;> rfl
  apply Nat.eq_of_testBit_eq
  intro j
  have hgj := congrArg (fun n => n.testBit j) hgm
  have hfj := congrArg (fun n => n.testBit j) hfrq
  simp only [Nat.testBit_and, Nat.zero_testBit] at hgj hfj
  rw [Nat.testBit_and]
  cases hg : gm.testBit j with
  | false =>
    rw [hg] at hfj
    rw [← hfj]
    simp
  | true =>
    rw [hg] at hgj
    have hmj : c.TCA_SINGLE_CMP0EN_bm.testBit j = false := by simpa using hgj
    have h := (run_ctrlb_outside_mask c j hmj ops (begin c .ARDUBOY4809 ch0 s)
      (by rw [hb]; exact u8_lt _) (by rw [hb])).2
    rw [h, hu]
    simp

/-- Claim C15 with the mode mask `0x07`: after `BeepPin1::begin()`,
`BeepPin1::tone(1000, 2)`, `BeepPin2::tone(500, 0)`, two `BeepPin1::timer()`
calls and `BeepPin2::noTone()` the mode bits of `CTRLB` are still the frequency
mode; and `BeepPin2::tone(500, 0)` leaves bit 0 of `CTRLB` unchanged. -/
theorem wgmode_preserved_witness :
    0x07 &&& avrConsts.TCA_SINGLE_CMP0EN_bm = 0 ∧
    avrConsts.TCA_SINGLE_WGMODE_FRQ_gc &&& 0x07 = avrConsts.TCA_SINGLE_WGMODE_FRQ_gc ∧
    avrConsts.TCA_SINGLE_WGMODE_FRQ_gc < 256 ∧
    (Op.tone .pin2 500 0).isBegin = false ∧
    (begin avrConsts .ARDUBOY4809 .pin1 State.zero).TCA0_SINGLE_CTRLB < 256 ∧
    avrConsts.TCA_SINGLE_CMP0EN_bm.testBit 0 = false ∧
    (run avrConsts .ARDUBOY4809
      [Op.tone .pin1 1000 2, Op.tone .pin2 500 0, Op.timer .pin1, Op.timer .pin1,
        Op.noTone .pin2]
      (begin avrConsts .ARDUBOY4809 .pin1 State.zero)).TCA0_SINGLE_CTRLB &&& 0x07
      = avrConsts.TCA_SINGLE_WGMODE_FRQ_gc ∧
    (step avrConsts .ARDUBOY4809 (Op.tone .pin2 500 0)
      (begin avrConsts .ARDUBOY4809 .pin1 State.zero)).TCA0_SINGLE_CTRLB.testBit 0
      = (begin avrConsts .ARDUBOY4809 .pin1 State.zero).TCA0_SINGLE_CTRLB.testBit 0 :=
  ⟨by decide, by decide, by decide, rfl, by decide, by decide,
    wgmode_preserved avrConsts 0x07 .pin1 State.zero
      [Op.tone .pin1 1000 2, Op.tone .pin2 500 0, Op.timer .pin1, Op.timer .pin1,
        Op.noTone .pin2]
      (by decide) (by decide) (by decide) (Op.tone .pin2 500 0)
      (begin avrConsts .ARDUBOY4809 .pin1 State.zero) 0 rfl (by decide) (by decide)⟩

end Arduboy2Beep
